import Mathlib

/-!
# Verification of the NATS notification core (`server/core/nats.go`)

A shallow embedding of the connection manager, notification publisher and
notification handlers of the account server's NATS core, together with
theorems settling the specified properties.

Modelling conventions:
* Machine state (`AccountServer`) carries the fields the Go code reads and
  writes: the `running` flag, the connection handle, the pending retry
  timer, the `primary` designation, the configuration, the claim store
  contents, the cache-expiry map `validUntil`, the list of registered
  subscription subjects, and an append-only log of logger events.
* External collaborators (the JWT codec, the claim store's success or
  failure on `Save`, the outcome of `nats.Connect`, the error value of
  `Publish`, and the current wall clock) are supplied as an environment
  (`Env`) of pure functions, so each Go function becomes a pure state
  transformer.
* Time instants are natural numbers in nanoseconds; `time.Hour` is the
  constant `timeHour`.
* Go's `error` results are `Option String` (`none` = `nil`).
-/

namespace AcctSrv

/-- An established bus connection handle (`*nats.Conn`); opaque to this core
apart from identity. -/
structure Conn where
  id : Nat
deriving DecidableEq, Repr

/-- TLS material of the NATS configuration (`conf.TLSConf`). -/
structure TLSConf where
  Root : String
  Cert : String
  Key : String
deriving DecidableEq, Repr

/-- The NATS section of the server configuration (`conf.NATSConfig`):
server addresses, reconnect limits and waits, connect timeout, TLS
material and the credentials file path. -/
structure NATSConfig where
  Servers : List String
  MaxReconnects : Int
  ReconnectWait : Int
  ConnectTimeout : Int
  TLS : TLSConf
  UserCredentials : String
deriving DecidableEq, Repr

/-- The part of the server configuration this core consults. -/
structure ServerConfig where
  NATS : NATSConfig
deriving DecidableEq, Repr

/-- Logger events emitted by this core, one constructor per logging call
site; payload formatting (e.g. `ShortKey`) is abstracted to the raw key. -/
inductive LogEvent
  | warnNatsError (msg : String)
  | warnNatsDisconnected
  | warnNatsReconnected
  | errorNatsClosedShutdown
  | debugDiscoveredServers
  | noticeNatsNotConfigured
  | noticeConnectingToNats
  | errorFailedToConnect
  | errorWillRetryIn (ms : Int)
  | noticeSkippingAccountNotification (pubKey : String)
  | noticeSkippingActivationNotification (hash : String)
  | errorUnableToComputeHashID
  | errorUnableToSaveActivation (hash : String)
deriving DecidableEq, Repr

/-- A decoded account claim (`jwt.AccountClaims`); this core only reads its
`Subject` (the account public key). -/
structure AccountClaims where
  Subject : String
deriving DecidableEq, Repr

/-- A decoded activation claim (`jwt.ActivationClaims`); this core only
uses it through `HashID()`, supplied by the environment. -/
structure ActivationClaims where
  Subject : String
deriving DecidableEq, Repr

/-- An inbound bus message (`*nats.Msg`): subject and payload. Payloads are
`String` (the Go code immediately converts `msg.Data` to a string). -/
structure Msg where
  subject : String
  data : String
deriving DecidableEq, Repr

/-- A `Publish(subject, payload)` call recorded against the bus client. -/
structure PublishCall where
  subject : String
  payload : String
deriving DecidableEq, Repr

/-- The server state this core reads and writes (`AccountServer` fields
`running`, `primary`, `config`, `nats`, `natsTimer`, the subjects
subscribed on the current connection, the claim store (`jwtStore`)
contents, the cache-expiry map `validUntil`, and the emitted log). -/
structure AccountServer where
  running : Bool
  primary : String
  config : ServerConfig
  nats : Option Conn
  natsTimer : Option Int
  subscriptions : List String
  jwtStore : String → Option String
  validUntil : String → Option Nat
  logs : List LogEvent

/-- External collaborators as pure functions: the JWT codec, `HashID`,
whether `jwtStore.Save(key, jwt)` succeeds, the error value of
`nats.Conn.Publish`, the outcome of `nats.Connect` (`some` handle or
`none` = error), and the current time `now` in nanoseconds. -/
structure Env where
  decodeAccountClaims : String → Option AccountClaims
  decodeActivationClaims : String → Option ActivationClaims
  hashID : ActivationClaims → Option String
  saveOk : String → String → Bool
  publishErr : String → String → Option String
  connectResult : Option Conn
  now : Nat

/-- `time.Hour` in nanoseconds. -/
def timeHour : Nat := 3600000000000

/-- The constant `accountNotificationFormat` of `nats.go`. -/
def accountNotificationFormat : String := "$SYS.ACCOUNT.%s.CLAIMS.UPDATE"

/-- The constant `activationNotificationFormat` of `nats.go`. -/
def activationNotificationFormat : String := "$SYS.ACCOUNT.%s.CLAIMS.ACTIVATE.%s"

/-- `fmt.Sprintf` restricted to `%s` verbs, applied over the format's
characters: each `%s` consumes the next argument. -/
def sprintfS : List Char → List String → List Char
  | '%' :: 's' :: rest, arg :: args => arg.data ++ sprintfS rest args
  | c :: rest, args => c :: sprintfS rest args
  | [], _ => []

/-- `fmt.Sprintf(format, args...)` for formats whose only verbs are `%s`. -/
def sprintf (format : String) (args : List String) : String :=
  String.mk (sprintfS format.data args)

/-- `strings.Replace(format, "%s", "*", -1)` over the format's characters:
every occurrence of `%s` becomes `*`. -/
def replacePercentSByStar : List Char → List Char
  | '%' :: 's' :: rest => '*' :: replacePercentSByStar rest
  | c :: rest => c :: replacePercentSByStar rest
  | [] => []

/-- The subscription subject derived from a notification format by
`strings.Replace(format, "%s", "*", -1)`. -/
def wildcardSubject (format : String) : String :=
  String.mk (replacePercentSByStar format.data)

/-- Modelled from the spec: `checkRunning` (defined outside this file)
reads the `running` flag under the state lock. -/
def AccountServer.checkRunning (server : AccountServer) : Bool :=
  server.running

/-- Modelled from the spec: `Stop()` (defined outside this file) marks
`running = false` under the lock and closes (clears) the connection handle
if present; it is idempotent and callable at any time. -/
def Stop (server : AccountServer) : AccountServer :=
  { server with running := false, nats := none }

/-- `natsClosed`: the bus client's closed callback. If the server is still
running it logs at error severity and (in a goroutine) runs `Stop()`
followed by `os.Exit(-1)`; the second component is the exit status passed
to `os.Exit`, `none` when the process is not terminated. -/
def natsClosed (server : AccountServer) : AccountServer × Option Int :=
  if server.checkRunning then
    let logged := { server with logs := server.logs ++ [LogEvent.errorNatsClosedShutdown] }
    (Stop logged, some (-1))
  else
    (server, none)

/-- `connectToNATS` (assumes the caller holds the lock). Returns the new
state and the Go `error` result. The `nats.Connect` call — including the
options assembled from `MaxReconnects`, `ReconnectWait`, `ConnectTimeout`,
the TLS material and the credentials file — is folded into
`env.connectResult`, since its outcome is the only part this core
observes. On failure the retry timer is recorded in `natsTimer` with its
duration; the spawned goroutine that waits on the timer is
`natsTimerFire` below. -/
def connectToNATS (env : Env) (server : AccountServer) : AccountServer × Option String :=
  if ¬ server.running then
    (server, none)
  else
    let config := server.config.NATS
    if config.Servers.length = 0 then
      ({ server with logs := server.logs ++ [LogEvent.noticeNatsNotConfigured] }, none)
    else
      let server := { server with logs := server.logs ++ [LogEvent.noticeConnectingToNats] }
      match env.connectResult with
      | none =>
        let reconnectWait := config.ReconnectWait
        ({ server with
            logs := server.logs ++ [LogEvent.errorFailedToConnect, LogEvent.errorWillRetryIn reconnectWait],
            natsTimer := some reconnectWait }, none)
      | some nc =>
        let server :=
          if server.primary ≠ "" then
            { server with subscriptions := server.subscriptions ++
                [wildcardSubject accountNotificationFormat,
                 wildcardSubject activationNotificationFormat] }
          else server
        ({ server with nats := some nc }, none)

/-- The body of the goroutine spawned on connect failure, run when the
retry timer fires: clear `natsTimer`, then, only if `checkRunning()` still
holds, re-invoke `connectToNATS` under the lock. -/
def natsTimerFire (env : Env) (server : AccountServer) : AccountServer :=
  let cleared := { server with natsTimer := none }
  if cleared.checkRunning then (connectToNATS env cleared).1 else cleared

/-- `sendAccountNotification(claim, theJWT)`: with no connection, log and
return `nil` without publishing; otherwise publish once on the subject
`fmt.Sprintf(accountNotificationFormat, claim.Subject)` and return the
publish's error unmodified. Result: (error, publish calls made, state). -/
def sendAccountNotification (env : Env) (server : AccountServer)
    (claim : AccountClaims) (theJWT : String) :
    Option String × List PublishCall × AccountServer :=
  let pubKey := claim.Subject
  match server.nats with
  | none =>
    (none, [], { server with logs := server.logs ++ [LogEvent.noticeSkippingAccountNotification pubKey] })
  | some _ =>
    let subject := sprintf accountNotificationFormat [pubKey]
    (env.publishErr subject theJWT, [⟨subject, theJWT⟩], server)

/-- `sendActivationNotification(hash, account, theJWT)`: with no
connection, log and return `nil` without publishing; otherwise publish
once on `fmt.Sprintf(activationNotificationFormat, account, hash)` and
return the publish's error unmodified. -/
def sendActivationNotification (env : Env) (server : AccountServer)
    (hash : String) (account : String) (theJWT : String) :
    Option String × List PublishCall × AccountServer :=
  match server.nats with
  | none =>
    (none, [], { server with logs := server.logs ++ [LogEvent.noticeSkippingActivationNotification hash] })
  | some _ =>
    let subject := sprintf activationNotificationFormat [account, hash]
    (env.publishErr subject theJWT, [⟨subject, theJWT⟩], server)

/-- `handleAccountNotification(msg)`: decode `msg.Data` as an account
claim; on decode failure (or nil claim) return silently. Otherwise save
the raw JWT in the claim store under the claim's `Subject`; on save
failure return silently. On success set `validUntil[pubKey]` to
`time.Now().Add(time.Hour)` under the cache lock. -/
def handleAccountNotification (env : Env) (server : AccountServer) (msg : Msg) : AccountServer :=
  let theJWT := msg.data
  match env.decodeAccountClaims theJWT with
  | none => server
  | some claim =>
    let pubKey := claim.Subject
    if env.saveOk pubKey theJWT then
      { server with
          jwtStore := fun k => if k = pubKey then some theJWT else server.jwtStore k,
          validUntil := fun k => if k = pubKey then some (env.now + timeHour) else server.validUntil k }
    else
      server

/-- `handleActivationNotification(msg)`: decode `msg.Data` as an
activation claim; on decode failure (or nil claim) return silently. If
`HashID()` fails, log at error severity and return. Save the raw JWT under
the hash; on save failure log at error severity and return. On success set
`validUntil[hash]` to `time.Now().Add(time.Hour)`. -/
def handleActivationNotification (env : Env) (server : AccountServer) (msg : Msg) : AccountServer :=
  let theJWT := msg.data
  match env.decodeActivationClaims theJWT with
  | none => server
  | some claim =>
    match env.hashID claim with
    | none => { server with logs := server.logs ++ [LogEvent.errorUnableToComputeHashID] }
    | some hash =>
      if env.saveOk hash theJWT then
        { server with
            jwtStore := fun k => if k = hash then some theJWT else server.jwtStore k,
            validUntil := fun k => if k = hash then some (env.now + timeHour) else server.validUntil k }
      else
        { server with logs := server.logs ++ [LogEvent.errorUnableToSaveActivation hash] }

/-! ## Concrete fixtures used by witnesses and counterexamples -/

/-- Empty TLS configuration. -/
def tlsNone : TLSConf := ⟨"", "", ""⟩

/-- A NATS configuration with the given address list and a 5000 ms
reconnect wait. -/
def natsConfigWith (servers : List String) : NATSConfig :=
  ⟨servers, 0, 5000, 4000, tlsNone, ""⟩

/-- A running primary server with a live connection and one configured
NATS address. -/
def serverW : AccountServer :=
  { running := true, primary := "P", config := ⟨natsConfigWith ["natshost"]⟩,
    nats := some ⟨0⟩, natsTimer := none, subscriptions := [],
    jwtStore := fun _ => none, validUntil := fun _ => none, logs := [] }

/-- Like `serverW` but with no connection handle established. -/
def serverNoConn : AccountServer := { serverW with nats := none }

/-- Like `serverW` but stopped (`running = false`). -/
def serverStopped : AccountServer := { serverW with running := false }

/-- Like `serverW` but with an empty NATS address list. -/
def serverNoServers : AccountServer := { serverW with config := ⟨natsConfigWith []⟩ }

/-- A concrete environment: payload J decodes to the account claim with
subject A, payload T decodes to an activation claim with subject I whose
hash is HI, every save succeeds, every publish succeeds, `nats.Connect`
fails, and the clock reads 7. -/
def envW : Env :=
  { decodeAccountClaims := fun s => if s = "J" then some ⟨"A"⟩ else none,
    decodeActivationClaims := fun s => if s = "T" then some ⟨"I"⟩ else none,
    hashID := fun c => some ("H" ++ c.Subject),
    saveOk := fun _ _ => true,
    publishErr := fun _ _ => none,
    connectResult := none,
    now := 7 }

/-- Like `envW` but every claim-store save fails. -/
def envFailSave : Env := { envW with saveOk := fun _ _ => false }

/-- Like `envW` but every decode fails. -/
def envDecodeFail : Env :=
  { envW with decodeAccountClaims := fun _ => none,
              decodeActivationClaims := fun _ => none }

/-! ## Helper lemmas on the subject templates -/

/-- Substituting an account identifier into the account template. -/
theorem sprintf_account (a : String) :
    sprintf accountNotificationFormat [a] = "$SYS.ACCOUNT." ++ a ++ ".CLAIMS.UPDATE" := rfl

/-- Substituting an account identifier and a hash into the activation
template. -/
theorem sprintf_activation (a h : String) :
    sprintf activationNotificationFormat [a, h] =
      "$SYS.ACCOUNT." ++ a ++ ".CLAIMS.ACTIVATE." ++ h := by
  show String.mk ("$SYS.ACCOUNT.".data ++ (a.data ++ (".CLAIMS.ACTIVATE.".data ++ (h.data ++ [])))) =
       String.mk ((("$SYS.ACCOUNT.".data ++ a.data) ++ ".CLAIMS.ACTIVATE.".data) ++ h.data)
  congr 1
  simp [List.append_assoc]

/-- The wildcarded account-update subscription subject. -/
theorem wildcard_account :
    wildcardSubject accountNotificationFormat = "$SYS.ACCOUNT.*.CLAIMS.UPDATE" := rfl

/-- The wildcarded activation subscription subject. -/
theorem wildcard_activation :
    wildcardSubject activationNotificationFormat = "$SYS.ACCOUNT.*.CLAIMS.ACTIVATE.*" := rfl

/-! ## Claim theorems -/

/-- Claim C1: round trip. For every account claim with identifier
`claim.Subject` and payload `theJWT`, publishing via
`sendAccountNotification` with a live connection produces exactly one
publish call carrying `theJWT`, and delivering that message to
`handleAccountNotification` — with decode succeeding on the payload and
the store write succeeding — leaves the claim store containing exactly
`theJWT` under the claim's identifier and `validUntil` containing the
expiry `now + time.Hour` at the time of handling. -/
theorem c1_round_trip (env : Env) (server : AccountServer) (c : Conn)
    (claim : AccountClaims) (theJWT : String)
    (hconn : server.nats = some c)
    (hdec : env.decodeAccountClaims theJWT = some claim)
    (hsave : env.saveOk claim.Subject theJWT = true) :
    (sendAccountNotification env server claim theJWT).2.1 =
      [⟨sprintf accountNotificationFormat [claim.Subject], theJWT⟩]
    ∧ (handleAccountNotification env server
        ⟨sprintf accountNotificationFormat [claim.Subject], theJWT⟩).jwtStore claim.Subject
        = some theJWT
    ∧ (handleAccountNotification env server
        ⟨sprintf accountNotificationFormat [claim.Subject], theJWT⟩).validUntil claim.Subject
        = some (env.now + timeHour) := by
  refine ⟨?_, ?_, ?_⟩ <;>
    simp [sendAccountNotification, handleAccountNotification, hconn, hdec, hsave]

/-- Witness for C1 at a concrete input: account claim A, payload J,
environment `envW`, server `serverW`. -/
theorem c1_round_trip_witness :
    (sendAccountNotification envW serverW ⟨"A"⟩ ("J")).2.1 =
      [⟨sprintf accountNotificationFormat ["A"], "J"⟩]
    ∧ (handleAccountNotification envW serverW
        ⟨sprintf accountNotificationFormat ["A"], "J"⟩).jwtStore ("A") = some ("J")
    ∧ (handleAccountNotification envW serverW
        ⟨sprintf accountNotificationFormat ["A"], "J"⟩).validUntil ("A")
        = some (7 + timeHour) :=
  c1_round_trip envW serverW ⟨0⟩ ⟨"A"⟩ ("J") rfl rfl rfl

/-- Claim C2, counterexample: with a live connection, the account-update
notification for identifier A is published on subject
`$SYS.ACCOUNT.A.CLAIMS.UPDATE` — not on `SYS.ACCOUNT.A.CLAIMS.UPDATE` as
the claim's template (missing the `$` prefix) would give. -/
theorem c2_counterexample :
    (sendAccountNotification envW serverW ⟨"A"⟩ ("J")).2.1 =
      [⟨"$SYS.ACCOUNT.A.CLAIMS.UPDATE", "J"⟩]
    ∧ ¬ ((sendAccountNotification envW serverW ⟨"A"⟩ ("J")).2.1 =
      [⟨"SYS.ACCOUNT.A.CLAIMS.UPDATE", "J"⟩]) := by
  refine ⟨rfl, ?_⟩
  decide

/-- Claim C2 as amended: the templates carry the `$SYS.` prefix. For every
account identifier `a` and hash `h`, the account-update notification is
published on `$SYS.ACCOUNT.` ++ a ++ `.CLAIMS.UPDATE` and subscribed as
`$SYS.ACCOUNT.*.CLAIMS.UPDATE`; the activation notification is published
on `$SYS.ACCOUNT.` ++ a ++ `.CLAIMS.ACTIVATE.` ++ h and subscribed as
`$SYS.ACCOUNT.*.CLAIMS.ACTIVATE.*`; `connectToNATS` registers exactly
those two wildcard subscriptions when the server is a primary. -/
theorem c2_subjects_amended (env : Env) (server : AccountServer) (c : Conn)
    (hconn : server.nats = some c) (a h jwtA jwtH : String) :
    (sendAccountNotification env server ⟨a⟩ jwtA).2.1 =
      [⟨"$SYS.ACCOUNT." ++ a ++ ".CLAIMS.UPDATE", jwtA⟩]
    ∧ (sendActivationNotification env server h a jwtH).2.1 =
      [⟨"$SYS.ACCOUNT." ++ a ++ ".CLAIMS.ACTIVATE." ++ h, jwtH⟩]
    ∧ wildcardSubject accountNotificationFormat = "$SYS.ACCOUNT.*.CLAIMS.UPDATE"
    ∧ wildcardSubject activationNotificationFormat = "$SYS.ACCOUNT.*.CLAIMS.ACTIVATE.*"
    ∧ (∀ (env2 : Env) (s2 : AccountServer) (nc : Conn),
        env2.connectResult = some nc → s2.running = true →
        s2.config.NATS.Servers ≠ [] → s2.primary ≠ "" →
        (connectToNATS env2 s2).1.subscriptions =
          s2.subscriptions ++ ["$SYS.ACCOUNT.*.CLAIMS.UPDATE", "$SYS.ACCOUNT.*.CLAIMS.ACTIVATE.*"]) := by
  refine ⟨?_, ?_, rfl, rfl, ?_⟩
  · simp [sendAccountNotification, hconn, sprintf_account]
  · simp [sendActivationNotification, hconn, sprintf_activation]
  · intro env2 s2 nc hcr hr hs hp
    simp [connectToNATS, hcr, hr, hp, List.length_eq_zero, hs,
      wildcard_account, wildcard_activation]

/-- Witness for C2's amended theorem at a concrete input. -/
theorem c2_subjects_amended_witness :
    (sendAccountNotification envW serverW ⟨"A"⟩ ("J")).2.1 =
      [⟨"$SYS.ACCOUNT." ++ "A" ++ ".CLAIMS.UPDATE", "J"⟩]
    ∧ (sendActivationNotification envW serverW ("H") ("A") ("T")).2.1 =
      [⟨"$SYS.ACCOUNT." ++ "A" ++ ".CLAIMS.ACTIVATE." ++ "H", "T"⟩] :=
  ⟨(c2_subjects_amended envW serverW ⟨0⟩ rfl "A" "H" "J" "T").1,
   (c2_subjects_amended envW serverW ⟨0⟩ rfl "A" "H" "J" "T").2.1⟩

/-- Claim C3: idempotence. Delivering the same valid account-update
notification twice (both deliveries with successful decode and store
write, the second at a later-or-equal clock) leaves the claim store
holding the same payload as after one delivery, and `validUntil` holding
the expiry of the later of the two touches; the handler is a total
function (it has no error result), so the second delivery never produces
an error. -/
theorem c3_idempotent (env : Env) (t1 t2 : Nat) (server : AccountServer)
    (claim : AccountClaims) (msg : Msg)
    (hdec : env.decodeAccountClaims msg.data = some claim)
    (hsave : env.saveOk claim.Subject msg.data = true)
    (h12 : t1 ≤ t2) :
    (handleAccountNotification { env with now := t2 }
        (handleAccountNotification { env with now := t1 } server msg) msg).jwtStore claim.Subject
      = (handleAccountNotification { env with now := t1 } server msg).jwtStore claim.Subject
    ∧ (handleAccountNotification { env with now := t2 }
        (handleAccountNotification { env with now := t1 } server msg) msg).jwtStore claim.Subject
      = some msg.data
    ∧ (handleAccountNotification { env with now := t1 } server msg).validUntil claim.Subject
      = some (t1 + timeHour)
    ∧ (handleAccountNotification { env with now := t2 }
        (handleAccountNotification { env with now := t1 } server msg) msg).validUntil claim.Subject
      = some (t2 + timeHour)
    ∧ t1 + timeHour ≤ t2 + timeHour := by
  refine ⟨?_, ?_, ?_, ?_, by omega⟩ <;>
    simp [handleAccountNotification, hdec, hsave]

/-- Witness for C3 at a concrete input: payload J delivered at times 3 and
then 5. -/
theorem c3_idempotent_witness :
    (handleAccountNotification { envW with now := 5 }
        (handleAccountNotification { envW with now := 3 } serverW ⟨"s", "J"⟩) ⟨"s", "J"⟩).jwtStore ("A")
      = (handleAccountNotification { envW with now := 3 } serverW ⟨"s", "J"⟩).jwtStore ("A")
    ∧ (handleAccountNotification { envW with now := 5 }
        (handleAccountNotification { envW with now := 3 } serverW ⟨"s", "J"⟩) ⟨"s", "J"⟩).jwtStore ("A")
      = some ("J")
    ∧ (handleAccountNotification { envW with now := 3 } serverW ⟨"s", "J"⟩).validUntil ("A")
      = some (3 + timeHour)
    ∧ (handleAccountNotification { envW with now := 5 }
        (handleAccountNotification { envW with now := 3 } serverW ⟨"s", "J"⟩) ⟨"s", "J"⟩).validUntil ("A")
      = some (5 + timeHour)
    ∧ 3 + timeHour ≤ 5 + timeHour :=
  c3_idempotent envW 3 5 serverW ⟨"A"⟩ ⟨"s", "J"⟩ rfl rfl (by omega)

/-- Claim C4: publish contract. With a nil connection handle, both send
functions log, return a nil error and publish nothing; with a live handle,
each publishes exactly once on the subject derived from its fixed template
and returns the underlying publish's error value unmodified, with no
retry (the publish-call list has exactly one element). -/
theorem c4_publish_contract (env : Env) (server : AccountServer)
    (claim : AccountClaims) (hash account theJWT : String) :
    (server.nats = none →
        (sendAccountNotification env server claim theJWT).1 = none
      ∧ (sendAccountNotification env server claim theJWT).2.1 = []
      ∧ (sendAccountNotification env server claim theJWT).2.2.logs =
          server.logs ++ [LogEvent.noticeSkippingAccountNotification claim.Subject]
      ∧ (sendActivationNotification env server hash account theJWT).1 = none
      ∧ (sendActivationNotification env server hash account theJWT).2.1 = []
      ∧ (sendActivationNotification env server hash account theJWT).2.2.logs =
          server.logs ++ [LogEvent.noticeSkippingActivationNotification hash])
    ∧ (∀ c : Conn, server.nats = some c →
        (sendAccountNotification env server claim theJWT).1 =
          env.publishErr (sprintf accountNotificationFormat [claim.Subject]) theJWT
      ∧ (sendAccountNotification env server claim theJWT).2.1 =
          [⟨sprintf accountNotificationFormat [claim.Subject], theJWT⟩]
      ∧ (sendActivationNotification env server hash account theJWT).1 =
          env.publishErr (sprintf activationNotificationFormat [account, hash]) theJWT
      ∧ (sendActivationNotification env server hash account theJWT).2.1 =
          [⟨sprintf activationNotificationFormat [account, hash], theJWT⟩]) := by
  constructor
  · intro hnone
    refine ⟨?_, ?_, ?_, ?_, ?_, ?_⟩ <;>
      simp [sendAccountNotification, sendActivationNotification, hnone]
  · intro c hsome
    refine ⟨?_, ?_, ?_, ?_⟩ <;>
      simp [sendAccountNotification, sendActivationNotification, hsome]

/-- Witness for C4 at concrete inputs: one server without a connection
and one with a live connection. -/
theorem c4_publish_contract_witness :
    (sendAccountNotification envW serverNoConn ⟨"A"⟩ ("J")).1 = none
    ∧ (sendAccountNotification envW serverNoConn ⟨"A"⟩ ("J")).2.1 = []
    ∧ (sendAccountNotification envW serverW ⟨"A"⟩ ("J")).2.1 =
        [⟨sprintf accountNotificationFormat ["A"], "J"⟩] :=
  ⟨((c4_publish_contract envW serverNoConn ⟨"A"⟩ ("H") ("A") ("J")).1 rfl).1,
   ((c4_publish_contract envW serverNoConn ⟨"A"⟩ ("H") ("A") ("J")).1 rfl).2.1,
   ((c4_publish_contract envW serverW ⟨"A"⟩ ("H") ("A") ("J")).2 ⟨0⟩ rfl).2.1⟩

/-- Claim C5: decode-failure frame. For every inbound message on either
subscription whose payload fails to decode (which subsumes a nil decoded
claim, `none` in the model), the handler returns the state completely
unchanged — claim store, `validUntil`, subscriptions and log included —
and, being a total function that returns normally, does not terminate the
subscription. -/
theorem c5_decode_failure_frame (env : Env) (server : AccountServer) (msg : Msg) :
    (env.decodeAccountClaims msg.data = none →
      handleAccountNotification env server msg = server)
    ∧ (env.decodeActivationClaims msg.data = none →
      handleActivationNotification env server msg = server) := by
  constructor <;> intro h <;>
    simp [handleAccountNotification, handleActivationNotification, h]

/-- Witness for C5 at a concrete input: an undecodable payload delivered
to both handlers. -/
theorem c5_decode_failure_frame_witness :
    handleAccountNotification envDecodeFail serverW ⟨"s", "X"⟩ = serverW
    ∧ handleActivationNotification envDecodeFail serverW ⟨"s", "X"⟩ = serverW :=
  ⟨(c5_decode_failure_frame envDecodeFail serverW ⟨"s", "X"⟩).1 rfl,
   (c5_decode_failure_frame envDecodeFail serverW ⟨"s", "X"⟩).2 rfl⟩

/-- Claim C6, at the failing input: an account-update message that decodes
successfully (payload J, subject A) but whose claim-store write fails is
dropped by `handleAccountNotification` with NO log line — the state,
including the log, the claim store and `validUntil`, is returned
unchanged, and no retry happens. The activation handler at the analogous
input (payload T, hash HI) does log on the failed save, confirming that
the account handler's silence contradicts the claim's (and the spec's)
"dropped with a log line" for account updates. -/
theorem c6_account_save_failure_silent :
    handleAccountNotification envFailSave serverW ⟨"s", "J"⟩ = serverW
    ∧ (handleAccountNotification envFailSave serverW ⟨"s", "J"⟩).logs = serverW.logs
    ∧ handleActivationNotification envFailSave serverW ⟨"s", "T"⟩ =
        { serverW with logs := serverW.logs ++ [LogEvent.errorUnableToSaveActivation ("HI")] } :=
  ⟨rfl, rfl, rfl⟩

/-- Claim C7: for every configuration whose NATS server-address list is
empty, `connectToNATS` returns a nil error and leaves the connection
handle, the retry timer and the subscriptions exactly as they were (no
handle established, no retry scheduled). -/
theorem c7_no_servers (env : Env) (server : AccountServer)
    (hsrv : server.config.NATS.Servers = []) :
    (connectToNATS env server).2 = none
    ∧ (connectToNATS env server).1.nats = server.nats
    ∧ (connectToNATS env server).1.natsTimer = server.natsTimer
    ∧ (connectToNATS env server).1.subscriptions = server.subscriptions := by
  by_cases hr : server.running <;>
    simp [connectToNATS, hsrv, hr]

/-- Witness for C7 at a concrete input: a running server with an empty
address list. -/
theorem c7_no_servers_witness :
    (connectToNATS envW serverNoServers).2 = none
    ∧ (connectToNATS envW serverNoServers).1.nats = serverNoServers.nats
    ∧ (connectToNATS envW serverNoServers).1.natsTimer = serverNoServers.natsTimer
    ∧ (connectToNATS envW serverNoServers).1.subscriptions = serverNoServers.subscriptions :=
  c7_no_servers envW serverNoServers rfl

/-- Claim C8: retry scheduling. A failed connection attempt returns a nil
error to the caller, leaves the handle unchanged and schedules exactly one
retry after the configured `ReconnectWait`; when the timer fires, the
goroutine clears the timer handle and re-invokes `connectToNATS` under the
lock only if `checkRunning()` still holds — in particular, if `Stop()` ran
first the fire observes `running = false` and changes nothing but the
cleared timer handle, making no reconnect attempt. -/
theorem c8_retry_scheduling (env : Env) (server : AccountServer)
    (hrun : server.running = true)
    (hsrv : server.config.NATS.Servers ≠ [])
    (hfail : env.connectResult = none) :
    (connectToNATS env server).2 = none
    ∧ (connectToNATS env server).1.natsTimer = some server.config.NATS.ReconnectWait
    ∧ (connectToNATS env server).1.nats = server.nats
    ∧ (∀ s2 : AccountServer, s2.running = false →
        natsTimerFire env s2 = { s2 with natsTimer := none })
    ∧ (∀ s2 : AccountServer, s2.running = true →
        natsTimerFire env s2 = (connectToNATS env { s2 with natsTimer := none }).1) := by
  refine ⟨?_, ?_, ?_, ?_, ?_⟩
  · simp [connectToNATS, hrun, hfail, List.length_eq_zero, hsrv]
  · simp [connectToNATS, hrun, hfail, List.length_eq_zero, hsrv]
  · simp [connectToNATS, hrun, hfail, List.length_eq_zero, hsrv]
  · intro s2 h2
    simp [natsTimerFire, AccountServer.checkRunning, h2]
  · intro s2 h2
    simp [natsTimerFire, AccountServer.checkRunning, h2]

/-- Witness for C8 at concrete inputs: `serverW` with a failing connect,
and a stopped server observing the timer fire. -/
theorem c8_retry_scheduling_witness :
    (connectToNATS envW serverW).2 = none
    ∧ (connectToNATS envW serverW).1.natsTimer = some serverW.config.NATS.ReconnectWait
    ∧ (∀ s2 : AccountServer, s2.running = false →
        natsTimerFire envW s2 = { s2 with natsTimer := none }) :=
  ⟨(c8_retry_scheduling envW serverW rfl (by decide) rfl).1,
   (c8_retry_scheduling envW serverW rfl (by decide) rfl).2.1,
   (c8_retry_scheduling envW serverW rfl (by decide) rfl).2.2.2.1⟩

/-- Claim C9: closed-callback fatality. If the closed callback fires while
the server is marked running, it logs at error severity, runs exactly one
stop sequence (`running` cleared, handle closed) and terminates the
process with the non-zero status -1; while not running it does nothing, so
a repeated invocation — in particular one racing or following an explicit
`Stop()` — never double-terminates. -/
theorem c9_closed_fatal (server : AccountServer)
    (hrun : server.running = true) :
    (natsClosed server).2 = some (-1)
    ∧ (∀ k : Int, (natsClosed server).2 = some k → k ≠ 0)
    ∧ (natsClosed server).1.running = false
    ∧ (natsClosed server).1.nats = none
    ∧ (natsClosed server).1.logs = server.logs ++ [LogEvent.errorNatsClosedShutdown]
    ∧ (∀ s2 : AccountServer, s2.running = false → natsClosed s2 = (s2, none))
    ∧ natsClosed (natsClosed server).1 = ((natsClosed server).1, none) := by
  refine ⟨?_, ?_, ?_, ?_, ?_, ?_, ?_⟩
  · simp [natsClosed, AccountServer.checkRunning, hrun]
  · intro k hk
    simp [natsClosed, AccountServer.checkRunning, hrun] at hk
    omega
  · simp [natsClosed, Stop, AccountServer.checkRunning, hrun]
  · simp [natsClosed, Stop, AccountServer.checkRunning, hrun]
  · simp [natsClosed, Stop, AccountServer.checkRunning, hrun]
  · intro s2 h2
    simp [natsClosed, AccountServer.checkRunning, h2]
  · simp [natsClosed, Stop, AccountServer.checkRunning, hrun]

/-- Witness for C9 at a concrete input: the closed callback on the running
server `serverW`, then again on the resulting stopped state. -/
theorem c9_closed_fatal_witness :
    (natsClosed serverW).2 = some (-1)
    ∧ (natsClosed serverW).1.running = false
    ∧ natsClosed (natsClosed serverW).1 = ((natsClosed serverW).1, none) :=
  ⟨(c9_closed_fatal serverW rfl).1,
   (c9_closed_fatal serverW rfl).2.2.1,
   (c9_closed_fatal serverW rfl).2.2.2.2.2.2⟩

/-- Claim C10: `connectToNATS` returns a nil error on every execution
path; when invoked with `running = false` it returns immediately with the
state unchanged — no connection attempt recorded, no handle stored, no
retry scheduled. -/
theorem c10_connect_never_errors (env : Env) (server : AccountServer) :
    (connectToNATS env server).2 = none
    ∧ (server.running = false → connectToNATS env server = (server, none)) := by
  constructor
  · by_cases hr : server.running
    · by_cases hs : server.config.NATS.Servers.length = 0
      · simp [connectToNATS, hr, hs]
      · cases hcr : env.connectResult <;> simp [connectToNATS, hr, hs, hcr]
    · simp [connectToNATS, hr]
  · intro hr
    simp [connectToNATS, hr]

/-- Witness for C10 at concrete inputs: a failing connect on the running
server returns a nil error; on the stopped server the call is the
identity. -/
theorem c10_connect_never_errors_witness :
    (connectToNATS envW serverW).2 = none
    ∧ connectToNATS envW serverStopped = (serverStopped, none) :=
  ⟨(c10_connect_never_errors envW serverW).1,
   (c10_connect_never_errors envW serverStopped).2 rfl⟩

end AcctSrv
